import Mathlib

/-!
Shallow embedding of the chat widget's Session Controller core
(`App` in the main source file, together with the `ChatDialog` wiring):
the `useLocalStorage` persistent store, the `useChatAPI` assistant
client with its timeout/classification logic, and the `App`-level
handlers `toggleChatDialog`, `handleSendMessage`, `clearChatHistory`.
Pure rendering, sound playback and DOM concerns are out of scope.
-/

/-- One timeline entry, as built by the `App` handlers.  User messages carry
only `text`, `sender`, `timestamp`; bot messages add `role` and `confidence`;
error entries set `isError`. -/
structure Message where
  text : String
  sender : String
  timestamp : String
  role : Option String := none
  confidence : Option Rat := none
  isError : Bool := false
deriving DecidableEq, Repr

/-- The `chatSettings` default shape from `useLocalStorage('chatSettings', ...)`. -/
structure Settings where
  notifications : Bool
  soundEnabled : Bool
  theme : String
deriving DecidableEq, Repr

/-- A `useLocalStorage` cell: the in-memory React state plus the durable
localStorage copy.  `stored = none` models an absent or unparseable entry
(JSON.parse of it would fail and the default would be used on hydration). -/
structure LS (α : Type) where
  value : α
  stored : Option α
deriving DecidableEq, Repr

/-- The body of `useLocalStorage.setStoredValue` before the `catch`:
`setValue(newValue)` runs first, then `localStorage.setItem`, which throws
when the write fails (`writeOk = false`). -/
def lsSetBody {α : Type} (s : LS α) (newValue : α) (writeOk : Bool) :
    Except String (LS α) :=
  let s1 : LS α := { s with value := newValue }
  if writeOk then .ok { s1 with stored := some newValue }
  else .error "QuotaExceededError"

/-- What the caller observes of `useLocalStorage.setStoredValue`: the `catch`
logs a warning and rethrows nothing, so the result is always `.ok`; the
mutations made before the throw point (the in-memory update) remain. -/
def setStoredValue {α : Type} (s : LS α) (newValue : α) (writeOk : Bool) :
    Except String (LS α) :=
  match lsSetBody s newValue writeOk with
  | .ok s' => .ok s'
  | .error _ => .ok { s with value := newValue }

/-- Total projection of `setStoredValue` (it never returns `.error`). -/
def runSave {α : Type} (s : LS α) (newValue : α) (writeOk : Bool) : LS α :=
  match setStoredValue s newValue writeOk with
  | .ok s' => s'
  | .error _ => s

/-- The persistent setter applied to a functional updater, as in
`setMessages(prevMessages => [...prevMessages, msg])`: React applies the
updater to the in-memory state, but `JSON.stringify` of a function is
`undefined`, so the durable cell receives the unparseable string
"undefined" (modelled as `none`).  A failed write leaves it untouched. -/
def setStoredValueUpdater {α : Type} (s : LS α) (f : α → α) (writeOk : Bool) :
    LS α :=
  if writeOk then { value := f s.value, stored := none }
  else { s with value := f s.value }

/-- Model of JavaScript `String.prototype.trim()`: remove leading and
trailing whitespace. -/
def jsTrim (s : String) : String :=
  String.mk
    (((s.data.dropWhile Char.isWhitespace).reverse.dropWhile
        Char.isWhitespace).reverse)

/-- Values of `connectionStatus` used by `useChatAPI`. -/
inductive ConnectionStatus where
  | connected
  | connecting
  | error
deriving DecidableEq, Repr

/-- Initial value `useState('connected')` in `useChatAPI`. -/
def initialConnectionStatus : ConnectionStatus := .connected

/-- The 30s deadline armed by `setTimeout(() => controller.abort(), 30000)`. -/
def timeoutMs : Nat := 30000

/-- The JSON body of the outbound POST to `/api/chat`. -/
structure ChatRequest where
  message : String
  role : Option String
  timestamp : String
deriving DecidableEq, Repr

/-- The parsed 2xx response payload. -/
structure ChatResponse where
  response : String
  detected_role : Option String
  confidence : Option Rat
deriving DecidableEq, Repr

/-- The value `useChatAPI.sendMessage` resolves with on success. -/
structure BotResponse where
  text : String
  role : Option String
  confidence : Option Rat
  timestamp : String
deriving DecidableEq, Repr

/-- Normalization `data.confidence || null`: a falsy confidence (absent or zero) becomes
null. -/
def normalizeConfidence : Option Rat → Option Rat
  | some c => if c = 0 then none else some c
  | none => none

/-- How one `fetch` round trip can end, seen from the `try` block of
`useChatAPI.sendMessage`. -/
inductive FetchOutcome where
  | timeout
  | networkFailure (message : String)
  | badStatus (status : Nat) (statusText : String)
  | parseFailure (message : String)
  | success (data : ChatResponse)
deriving DecidableEq, Repr

/-- Environment of one call: the fetch outcome and `navigator.onLine` as
read inside the `catch` block. -/
structure FetchEnv where
  outcome : FetchOutcome
  online : Bool
deriving DecidableEq, Repr

/-- The exception object reaching the `catch` block of
`useChatAPI.sendMessage`: the abort exception, the `Server error: ...`
exception thrown on a non-ok status, or any other transport/parse
exception. -/
inductive CaughtError where
  | abortError
  | serverError (status : Nat) (statusText : String)
  | other (message : String)
deriving DecidableEq, Repr

/-- The `error.name` of the caught exception.  Only the abort exception is named
`AbortError`. -/
def errorName : CaughtError → String
  | .abortError => "AbortError"
  | .serverError _ _ => "Error"
  | .other _ => "Error"

/-- The `error.message` of the caught exception. -/
def errorMessage : CaughtError → String
  | .abortError => "signal is aborted without reason"
  | .serverError status statusText =>
      "Server error: " ++ toString status ++ " " ++ statusText
  | .other message => message

/-- Which exception the `try` block raises for each fetch outcome (`none`
when the call succeeds). -/
def caughtOf : FetchOutcome → Option CaughtError
  | .timeout => some .abortError
  | .networkFailure m => some (.other m)
  | .badStatus s t => some (.serverError s t)
  | .parseFailure m => some (.other m)
  | .success _ => none

/-- The `catch` block's classification chain, producing the message of the
error rethrown to the caller:
`if (error.name === 'AbortError') ... else if (!navigator.onLine) ...
else ... error.message || fallback`. -/
def classifyCatch (e : CaughtError) (online : Bool) : String :=
  if errorName e = "AbortError" then "Request timed out. Please try again."
  else if online = false then
    "No internet connection. Please check your network."
  else if errorMessage e ≠ "" then errorMessage e
  else "Failed to connect to server. Please try again."

/-- The spec's four failure kinds. -/
inductive FailureKind where
  | Timeout
  | Offline
  | ServerError (status : Nat) (statusText : String)
  | Unknown (message : String)
deriving DecidableEq, Repr

/-- Modelled from the spec: the classification order of section 4.2 —
(a) cancelled by deadline → Timeout; (b) otherwise no reachability →
Offline; (c) otherwise non-success status → ServerError; (d) otherwise →
Unknown. -/
def specClassify (e : CaughtError) (online : Bool) : FailureKind :=
  if e = .abortError then .Timeout
  else if online = false then .Offline
  else
    match e with
    | .serverError s t => .ServerError s t
    | e' => .Unknown (errorMessage e')

/-- The user-facing message the code attaches to each failure kind. -/
def renderKind : FailureKind → String
  | .Timeout => "Request timed out. Please try again."
  | .Offline => "No internet connection. Please check your network."
  | .ServerError status statusText =>
      "Server error: " ++ toString status ++ " " ++ statusText
  | .Unknown message =>
      if message ≠ "" then message
      else "Failed to connect to server. Please try again."

/-- Everything one call to `useChatAPI.sendMessage` does: the request body
it posts, the value or error it settles with, the loading/connection state
while in flight and after the `finally`. -/
structure SendMessageResult where
  request : ChatRequest
  result : Except String BotResponse
  isLoadingDuringCall : Bool
  statusDuringCall : ConnectionStatus
  finalIsLoading : Bool
  finalConnectionStatus : ConnectionStatus
deriving Repr

/-- Failure arm of `sendMessage`: `setConnectionStatus('error')`, classify,
rethrow, `finally setIsLoading(false)`. -/
def sendMessageFailure (req : ChatRequest) (e : CaughtError) (online : Bool) :
    SendMessageResult :=
  { request := req
    result := .error (classifyCatch e online)
    isLoadingDuringCall := true
    statusDuringCall := .connecting
    finalIsLoading := false
    finalConnectionStatus := .error }

/-- One call of `useChatAPI.sendMessage(message, role)` under environment `env`, with
`now` the ISO timestamp `new Date().toISOString()` returns during the call.
The body posts `message.trim()`, the selected `role` and the timestamp. -/
def sendMessage (message : String) (role : Option String) (now : String)
    (env : FetchEnv) : SendMessageResult :=
  let req : ChatRequest :=
    { message := jsTrim message, role := role, timestamp := now }
  match env.outcome with
  | .success data =>
      { request := req
        result := .ok
          { text := data.response
            role := data.detected_role
            confidence := normalizeConfidence data.confidence
            timestamp := now }
        isLoadingDuringCall := true
        statusDuringCall := .connecting
        finalIsLoading := false
        finalConnectionStatus := .connected }
  | .timeout => sendMessageFailure req .abortError env.online
  | .networkFailure m => sendMessageFailure req (.other m) env.online
  | .badStatus s t => sendMessageFailure req (.serverError s t) env.online
  | .parseFailure m => sendMessageFailure req (.other m) env.online

/-- Returns `true` exactly when the exchange settled successfully. -/
def exchangeSucceeded (r : Except String BotResponse) : Bool :=
  match r with
  | .ok _ => true
  | .error _ => false

/-- A toast raised through `react-toastify`. -/
structure Toast where
  kind : String
  text : String
deriving DecidableEq, Repr

/-- The `App` component's state slices: dialog visibility, the three
`useLocalStorage` cells and the pending input. -/
structure AppState where
  isOpen : Bool
  messagesLS : LS (List Message)
  inputValue : String
  userRoleLS : LS (Option String)
  chatSettingsLS : LS Settings
deriving DecidableEq, Repr

/-- The fixed greeting text of the welcome message. -/
def welcomeText : String :=
  "👋 Welcome to Modern College Pune! I'm here to help you with admissions, courses, and general information. How can I assist you today?"

/-- The welcome message synthesized by `toggleChatDialog`. -/
def welcomeMessage (now : String) : Message :=
  { text := welcomeText, sender := "bot", timestamp := now }

/-- Model of `toggleChatDialog`: flip `isOpen`; when the dialog was closed and the
timeline is empty, store `[welcomeMessage]` through the persistent setter
(a direct value, so it is serialized and written). -/
def toggleChatDialog (st : AppState) (now : String) (writeOk : Bool) :
    AppState :=
  let st1 : AppState := { st with isOpen := !st.isOpen }
  if st.isOpen = false then
    if st.messagesLS.value.length = 0 then
      { st1 with
          messagesLS := runSave st.messagesLS [welcomeMessage now] writeOk }
    else st1
  else st1

/-- The guard of the role-detection toast:
`botResponse.role && botResponse.role !== userRole` — the detected role is
truthy (present and non-empty) and differs from the current `userRole`. -/
def roleToastFires (detected : Option String) (userRole : Option String) :
    Bool :=
  match detected with
  | some s => s ≠ "" && some s ≠ userRole
  | none => false

/-- Observable effects of one `handleSendMessage` call: the request issued
(`none` when the empty-trim guard returns early), the in-memory timeline
and input at the moment the exchange is invoked, the final state and the
toasts raised. -/
structure SendTrace where
  sent : Option ChatRequest
  messagesAtExchange : List Message
  inputAtExchange : String
  apiResult : SendMessageResult
  exchanged : Bool
  final : AppState
  toasts : List Toast
deriving Repr

/-- Model of `App.handleSendMessage(customMessage)`: resolve the text (the argument
when given, else the pending input), return early when it trims empty;
otherwise append the raw-text user message via a functional update, clear
the input, run the exchange with the App-level `userRole`, and append the
bot message or the error message.  `now` stands for the ISO timestamps
taken during the call. -/
def handleSendMessage (st : AppState) (customMessage : Option String)
    (env : FetchEnv) (now : String) (writeOk : Bool) : SendTrace :=
  let messageToSend := customMessage.getD st.inputValue
  if jsTrim messageToSend = "" then
    { sent := none
      messagesAtExchange := st.messagesLS.value
      inputAtExchange := st.inputValue
      apiResult := sendMessage messageToSend st.userRoleLS.value now env
      exchanged := false
      final := st
      toasts := [] }
  else
    let userMessage : Message :=
      { text := messageToSend, sender := "user", timestamp := now }
    let st1 : AppState :=
      { st with
          messagesLS :=
            setStoredValueUpdater st.messagesLS (· ++ [userMessage]) writeOk
          inputValue := "" }
    let r := sendMessage messageToSend st.userRoleLS.value now env
    match r.result with
    | .ok botResponse =>
        let botMessage : Message :=
          { text := botResponse.text
            sender := "bot"
            timestamp := botResponse.timestamp
            role := botResponse.role
            confidence := botResponse.confidence }
        let st2 : AppState :=
          { st1 with
              messagesLS :=
                setStoredValueUpdater st1.messagesLS (· ++ [botMessage])
                  writeOk }
        { sent := some r.request
          messagesAtExchange := st1.messagesLS.value
          inputAtExchange := st1.inputValue
          apiResult := r
          exchanged := true
          final := st2
          toasts :=
            if roleToastFires botResponse.role st.userRoleLS.value then
              [{ kind := "info"
                 text := "Detected context: " ++ botResponse.role.getD "" }]
            else [] }
    | .error errMsg =>
        let errorEntry : Message :=
          { text :=
              if errMsg ≠ "" then errMsg
              else "Sorry, I encountered an error. Please try again later."
            sender := "bot"
            timestamp := now
            isError := true }
        let st2 : AppState :=
          { st1 with
              messagesLS :=
                setStoredValueUpdater st1.messagesLS (· ++ [errorEntry])
                  writeOk }
        { sent := some r.request
          messagesAtExchange := st1.messagesLS.value
          inputAtExchange := st1.inputValue
          apiResult := r
          exchanged := true
          final := st2
          toasts := [{ kind := "error", text := errMsg }] }

/-- Model of `clearChatHistory`: store `[]` through the persistent setter and raise
an info toast. -/
def clearChatHistory (st : AppState) (writeOk : Bool) :
    AppState × List Toast :=
  ({ st with messagesLS := runSave st.messagesLS [] writeOk },
   [{ kind := "info", text := "Chat history cleared" }])

/-- The `ChatDialog` send button: `onSendMessage(inputValue, role)` with the
dialog's local `role` state.  `App.handleSendMessage` declares the single
parameter `customMessage`, so the second argument is dropped, and the
dialog never invokes the `onRoleChange` prop, so `dialogRole` reaches no
App state either. -/
def chatDialogSendClick (dialogRole : Option String) (st : AppState)
    (env : FetchEnv) (now : String) (writeOk : Bool) : SendTrace :=
  handleSendMessage st (some st.inputValue) env now writeOk

/-- Count of user-authored entries in a timeline. -/
def countUserMessages (l : List Message) : Nat :=
  (l.filter (fun m => m.sender = "user")).length

/-- Count of error entries in a timeline. -/
def countErrorMessages (l : List Message) : Nat :=
  (l.filter (fun m => m.isError)).length

/-- Default settings object passed to `useLocalStorage('chatSettings', ...)`. -/
def defaultSettings : Settings :=
  { notifications := true, soundEnabled := true, theme := "light" }

/-- A concrete app state used to instantiate witnesses: dialog closed, empty
hydrated timeline, pending input `"  Hello  "`, no role selected. -/
def sampleState : AppState :=
  { isOpen := false
    messagesLS := { value := [], stored := some [] }
    inputValue := "  Hello  "
    userRoleLS := { value := none, stored := none }
    chatSettingsLS := { value := defaultSettings, stored := some defaultSettings } }

/-- The message of a non-ok status is never empty (it starts with
`Server error: `). -/
theorem serverError_message_ne_empty (s : Nat) (t : String) :
    errorMessage (.serverError s t) ≠ "" := by
  intro h
  have hlen := congrArg String.length h
  simp only [errorMessage, String.length_append] at hlen
  have h1 : ("Server error: ".length : Nat) = 14 := by decide
  have h2 : (("" : String).length : Nat) = 0 := by decide
  omega

/-- C2 (amended): `setStoredValue` never surfaces an error, and on a failed
write the durable copy keeps its prior value — but the in-memory value has
already been set to the new value in every case. -/
theorem setStoredValue_total {α : Type} (s : LS α) (v : α) (writeOk : Bool) :
    ∃ s' : LS α, setStoredValue s v writeOk = .ok s' ∧ s'.value = v ∧
      s'.stored = if writeOk = true then some v else s.stored := by
  cases writeOk
  · exact ⟨{ s with value := v }, rfl, rfl, rfl⟩
  · exact ⟨{ value := v, stored := some v }, rfl, rfl, rfl⟩

/-- C2 (counterexample): with a failing write, the resulting in-memory value
is the new value `1`, not the prior value `0` — the claim that the prior
in-memory value is left intact fails. -/
theorem setStoredValue_counterexample :
    ∃ s' : LS Nat,
      setStoredValue { value := 0, stored := some 0 } 1 false = .ok s' ∧
      s'.value ≠ 0 :=
  ⟨{ value := 1, stored := some 0 }, rfl, by decide⟩

/-- C4: every failed exchange settles with exactly the message of the spec's
classification — deadline cancellation first (`Timeout`), then missing
reachability (`Offline`), then non-success status (`ServerError`), then
anything else (`Unknown`). -/
theorem sendMessage_classifies (m : String) (r : Option String) (now : String)
    (env : FetchEnv) (e : CaughtError) (h : caughtOf env.outcome = some e) :
    (sendMessage m r now env).result =
      .error (renderKind (specClassify e env.online)) := by
  obtain ⟨outcome, online⟩ := env
  cases outcome <;>
    simp only [caughtOf, Option.some.injEq, reduceCtorEq] at h <;>
    subst h <;>
    cases online <;>
    simp [sendMessage, sendMessageFailure, classifyCatch, errorName,
      specClassify, renderKind, errorMessage]
  · intro h
    exact absurd h (serverError_message_ne_empty _ _)

/-- Witness for C4 at a concrete failed call: a 500 response while online is
classified as `ServerError 500`. -/
theorem sendMessage_classifies_witness :
    caughtOf (FetchEnv.mk (.badStatus 500 "Internal Server Error") true).outcome
        = some (.serverError 500 "Internal Server Error") ∧
    (sendMessage "hi" none "t0"
        (FetchEnv.mk (.badStatus 500 "Internal Server Error") true)).result =
      .error (renderKind
        (specClassify (.serverError 500 "Internal Server Error") true)) :=
  ⟨rfl, sendMessage_classifies "hi" none "t0" _ _ rfl⟩

/-- C5: the connection status starts `connected`, is `connecting` for the
duration of every `sendMessage` call, and after resolution is `connected`
exactly when the exchange succeeded and `error` exactly when it failed. -/
theorem connectionStatus_transitions :
    initialConnectionStatus = .connected ∧
    ∀ (m : String) (r : Option String) (now : String) (env : FetchEnv),
      (sendMessage m r now env).statusDuringCall = .connecting ∧
      ((sendMessage m r now env).finalConnectionStatus = .connected ↔
        exchangeSucceeded (sendMessage m r now env).result = true) ∧
      ((sendMessage m r now env).finalConnectionStatus = .error ↔
        exchangeSucceeded (sendMessage m r now env).result = false) := by
  refine ⟨rfl, fun m r now env => ?_⟩
  obtain ⟨outcome, online⟩ := env
  cases outcome <;>
    simp [sendMessage, sendMessageFailure, exchangeSucceeded]

@[simp]
theorem setStoredValueUpdater_value {α : Type} (s : LS α) (f : α → α)
    (writeOk : Bool) : (setStoredValueUpdater s f writeOk).value = f s.value := by
  cases writeOk <;> rfl

@[simp]
theorem runSave_value {α : Type} (s : LS α) (v : α) (writeOk : Bool) :
    (runSave s v writeOk).value = v := by
  cases writeOk <;> rfl

@[simp]
theorem runSave_stored {α : Type} (s : LS α) (v : α) (writeOk : Bool) :
    (runSave s v writeOk).stored =
      if writeOk = true then some v else s.stored := by
  cases writeOk <;> rfl

/-- C6: when the text trims non-empty, exactly one user message holding the
raw untrimmed text is on the timeline at the moment the exchange is
invoked, the transmitted body carries the trimmed text, and whatever the
exchange outcome, the final timeline holds exactly one more user message
than before. -/
theorem handleSend_appends_user (st : AppState) (custom : Option String)
    (env : FetchEnv) (now : String) (writeOk : Bool)
    (hne : jsTrim (custom.getD st.inputValue) ≠ "") :
    (handleSendMessage st custom env now writeOk).messagesAtExchange =
      st.messagesLS.value ++
        [{ text := custom.getD st.inputValue, sender := "user",
           timestamp := now }] ∧
    (handleSendMessage st custom env now writeOk).sent =
      some { message := jsTrim (custom.getD st.inputValue),
             role := st.userRoleLS.value, timestamp := now } ∧
    countUserMessages
        (handleSendMessage st custom env now writeOk).final.messagesLS.value =
      countUserMessages st.messagesLS.value + 1 := by
  obtain ⟨outcome, online⟩ := env
  cases outcome <;>
    simp [handleSendMessage, hne, sendMessage, sendMessageFailure,
      countUserMessages, List.filter_append]

/-- A concrete successful reply: the remote answers `Hi!` and detects the
`student` role with confidence 0.9. -/
def sampleReply : ChatResponse :=
  { response := "Hi!", detected_role := some "student",
    confidence := some (9 / 10) }

/-- A concrete environment: the fetch succeeds with `sampleReply` while the
browser is online. -/
def sampleEnv : FetchEnv := { outcome := .success sampleReply, online := true }

/-- Witness for C6 at `"  Hello  "` with a successful exchange. -/
theorem handleSend_appends_user_witness :
    jsTrim ((some "  Hello  ").getD sampleState.inputValue) ≠ "" ∧
    ((handleSendMessage sampleState (some "  Hello  ") sampleEnv "t0"
        true).messagesAtExchange =
      sampleState.messagesLS.value ++
        [{ text := (some "  Hello  ").getD sampleState.inputValue,
           sender := "user", timestamp := "t0" }] ∧
    (handleSendMessage sampleState (some "  Hello  ") sampleEnv "t0"
        true).sent =
      some { message := jsTrim ((some "  Hello  ").getD sampleState.inputValue),
             role := sampleState.userRoleLS.value, timestamp := "t0" } ∧
    countUserMessages
        (handleSendMessage sampleState (some "  Hello  ") sampleEnv "t0"
          true).final.messagesLS.value =
      countUserMessages sampleState.messagesLS.value + 1) :=
  ⟨by decide, handleSend_appends_user sampleState (some "  Hello  ")
    sampleEnv "t0" true (by decide)⟩

/-- C7: when the text trims empty, `handleSendMessage` changes nothing:
the state is returned untouched, nothing is transmitted, no toast fires. -/
theorem handleSend_noop (st : AppState) (custom : Option String)
    (env : FetchEnv) (now : String) (writeOk : Bool)
    (h : jsTrim (custom.getD st.inputValue) = "") :
    (handleSendMessage st custom env now writeOk).final = st ∧
    (handleSendMessage st custom env now writeOk).sent = none ∧
    (handleSendMessage st custom env now writeOk).exchanged = false ∧
    (handleSendMessage st custom env now writeOk).toasts = [] := by
  simp [handleSendMessage, h]

/-- Witness for C7 at whitespace-only input. -/
theorem handleSend_noop_witness :
    jsTrim ((some "   ").getD sampleState.inputValue) = "" ∧
    ((handleSendMessage sampleState (some "   ")
        (FetchEnv.mk .timeout true) "t0" true).final = sampleState ∧
    (handleSendMessage sampleState (some "   ")
        (FetchEnv.mk .timeout true) "t0" true).sent = none ∧
    (handleSendMessage sampleState (some "   ")
        (FetchEnv.mk .timeout true) "t0" true).exchanged = false ∧
    (handleSendMessage sampleState (some "   ")
        (FetchEnv.mk .timeout true) "t0" true).toasts = []) :=
  ⟨by decide, handleSend_noop sampleState (some "   ")
    (FetchEnv.mk .timeout true) "t0" true (by decide)⟩

/-- C3: the deadline is 30 seconds; when the remote never responds the call
settles with the Timeout message, the busy indicator is false afterwards,
and exactly one error message is appended to the timeline for that send. -/
theorem timeout_resolution (st : AppState) (custom : Option String)
    (online : Bool) (now : String) (writeOk : Bool)
    (hne : jsTrim (custom.getD st.inputValue) ≠ "") :
    timeoutMs = 30 * 1000 ∧
    (handleSendMessage st custom (FetchEnv.mk .timeout online) now
        writeOk).apiResult.result = .error (renderKind .Timeout) ∧
    specClassify .abortError online = .Timeout ∧
    (handleSendMessage st custom (FetchEnv.mk .timeout online) now
        writeOk).apiResult.finalIsLoading = false ∧
    countErrorMessages
        (handleSendMessage st custom (FetchEnv.mk .timeout online) now
          writeOk).final.messagesLS.value =
      countErrorMessages st.messagesLS.value + 1 := by
  refine ⟨rfl, ?_, by simp [specClassify], ?_, ?_⟩ <;>
    simp [handleSendMessage, hne, sendMessage, sendMessageFailure,
      classifyCatch, errorName, renderKind, countErrorMessages,
      List.filter_append]

/-- Witness for C3 at a concrete timed-out send. -/
theorem timeout_resolution_witness :
    jsTrim ((none : Option String).getD sampleState.inputValue) ≠ "" ∧
    (timeoutMs = 30 * 1000 ∧
    (handleSendMessage sampleState none (FetchEnv.mk .timeout true) "t0"
        true).apiResult.result = .error (renderKind .Timeout) ∧
    specClassify .abortError true = .Timeout ∧
    (handleSendMessage sampleState none (FetchEnv.mk .timeout true) "t0"
        true).apiResult.finalIsLoading = false ∧
    countErrorMessages
        (handleSendMessage sampleState none (FetchEnv.mk .timeout true) "t0"
          true).final.messagesLS.value =
      countErrorMessages sampleState.messagesLS.value + 1) :=
  ⟨by decide, timeout_resolution sampleState none true "t0" true (by decide)⟩

/-- C8: opening the dialog (it was closed) with an empty timeline creates
exactly one welcome message and persists it; opening with a non-empty
timeline leaves the timeline cell — memory and storage — untouched. -/
theorem toggle_welcome (st : AppState) (now : String) (writeOk : Bool)
    (hclosed : st.isOpen = false) :
    (st.messagesLS.value = [] →
      (toggleChatDialog st now writeOk).messagesLS.value =
        [welcomeMessage now] ∧
      (toggleChatDialog st now writeOk).messagesLS.stored =
        (if writeOk = true then some [welcomeMessage now]
         else st.messagesLS.stored) ∧
      (toggleChatDialog st now writeOk).isOpen = true) ∧
    (st.messagesLS.value ≠ [] →
      (toggleChatDialog st now writeOk).messagesLS = st.messagesLS ∧
      (toggleChatDialog st now writeOk).isOpen = true) := by
  constructor
  · intro hempty
    simp [toggleChatDialog, hclosed, hempty]
  · intro hne
    have hlen : st.messagesLS.value.length ≠ 0 := by
      simpa [List.length_eq_zero] using hne
    simp [toggleChatDialog, hclosed, hlen]

/-- Witness for C8: opening twice from `sampleState` — the first open on the
empty timeline creates and persists the welcome message, the second open
(after closing) adds nothing. -/
theorem toggle_welcome_witness :
    sampleState.isOpen = false ∧
    ((toggleChatDialog sampleState "t0" true).messagesLS.value =
        [welcomeMessage "t0"] ∧
      (toggleChatDialog (toggleChatDialog (toggleChatDialog sampleState "t0"
          true) "t1" true) "t2" true).messagesLS.value =
        [welcomeMessage "t0"]) := by
  refine ⟨rfl, ?_, ?_⟩
  · exact ((toggle_welcome sampleState "t0" true rfl).1 rfl).1
  · have h2 := toggle_welcome
      (toggleChatDialog (toggleChatDialog sampleState "t0" true) "t1" true)
      "t2" true (by decide)
    exact (h2.2 (by decide)).1.symm ▸ (by decide)

/-- C10: `clearChatHistory` empties the timeline (in memory always, in
storage when the write succeeds) and leaves every other state slice — role
and settings, in memory and in storage, dialog visibility, pending input —
exactly as it was. -/
theorem clearHistory_frame (st : AppState) (writeOk : Bool) :
    (clearChatHistory st writeOk).1.userRoleLS = st.userRoleLS ∧
    (clearChatHistory st writeOk).1.chatSettingsLS = st.chatSettingsLS ∧
    (clearChatHistory st writeOk).1.messagesLS.value = [] ∧
    (clearChatHistory st writeOk).1.messagesLS.stored =
      (if writeOk = true then some [] else st.messagesLS.stored) ∧
    (clearChatHistory st writeOk).1.isOpen = st.isOpen ∧
    (clearChatHistory st writeOk).1.inputValue = st.inputValue := by
  refine ⟨rfl, rfl, ?_, ?_, rfl, rfl⟩ <;> simp [clearChatHistory]

/-- C9 (counterexample): remote replies without a detected role while the
selected role is `student` — the two differ, yet no context-detected toast
is raised, refuting the claimed "iff" over all combinations. -/
theorem roleToast_counterexample :
    (none : Option String) ≠ some "student" ∧
    (handleSendMessage
        { sampleState with userRoleLS := { value := some "student",
                                           stored := some (some "student") } }
        (some "Hello")
        { outcome := .success { response := "Hi!", detected_role := none,
                                confidence := none },
          online := true }
        "t0" true).toasts = [] := by
  exact ⟨by decide, by decide⟩

/-- C9 (amended): after a successful exchange the context-detected toast is
raised iff the detected role is present, non-empty and different from the
currently selected role; the selected role (memory and storage) is never
changed by this path. -/
theorem roleToast_amended (st : AppState) (custom : Option String)
    (data : ChatResponse) (online : Bool) (now : String) (writeOk : Bool)
    (hne : jsTrim (custom.getD st.inputValue) ≠ "") :
    (∀ s, data.detected_role = some s → s ≠ "" →
      some s ≠ st.userRoleLS.value →
      (handleSendMessage st custom
          { outcome := .success data, online := online } now writeOk).toasts =
        [{ kind := "info", text := "Detected context: " ++ s }]) ∧
    ((data.detected_role = none ∨ data.detected_role = some "" ∨
        data.detected_role = st.userRoleLS.value) →
      (handleSendMessage st custom
          { outcome := .success data, online := online } now writeOk).toasts =
        []) ∧
    (handleSendMessage st custom
        { outcome := .success data, online := online } now
        writeOk).final.userRoleLS = st.userRoleLS := by
  refine ⟨?_, ?_, ?_⟩
  · intro s hs hne2 hdiff
    simp [handleSendMessage, hne, sendMessage, roleToastFires, hs, hne2, hdiff]
  · intro hcase
    rcases hcase with h | h | h
    · simp [handleSendMessage, hne, sendMessage, roleToastFires, h]
    · simp [handleSendMessage, hne, sendMessage, roleToastFires, h]
    · cases hv : st.userRoleLS.value <;>
        simp [handleSendMessage, hne, sendMessage, roleToastFires, h, hv]
  · simp [handleSendMessage, hne, sendMessage]

/-- The state `sampleState` with the role `student` selected (in memory and stored). -/
def studentState : AppState :=
  { sampleState with
      userRoleLS := { value := some "student", stored := some (some "student") } }

/-- A successful reply whose detected role is `parent`. -/
def parentEnv : FetchEnv :=
  { outcome := .success { response := "Hi!", detected_role := some "parent",
                          confidence := some (9 / 10) }
    online := true }

/-- Witness for the amended C9: requested role `student`, detected role
`parent` — the context-detected toast fires and the selected role is
untouched. -/
theorem roleToast_amended_witness :
    jsTrim ((some "Hello").getD studentState.inputValue) ≠ "" ∧
    (handleSendMessage studentState (some "Hello") parentEnv "t0"
        true).toasts =
      [{ kind := "info", text := "Detected context: " ++ "parent" }] ∧
    (handleSendMessage studentState (some "Hello") parentEnv "t0"
        true).final.userRoleLS = studentState.userRoleLS :=
  ⟨by decide,
   (roleToast_amended studentState (some "Hello")
      { response := "Hi!", detected_role := some "parent",
        confidence := some (9 / 10) } true "t0" true (by decide)).1
     "parent" rfl (by decide) (by decide),
   (roleToast_amended studentState (some "Hello")
      { response := "Hi!", detected_role := some "parent",
        confidence := some (9 / 10) } true "t0" true (by decide)).2.2⟩

/-- C1 (code evaluated at the failing input): with the dialog-selected role
`student`, an App-level `userRole` of `null` and input `"  Hello  "`, the
send button's click transmits `role = null` — not the selected `student` —
because `handleSendMessage` drops its second argument and the dialog never
updates the App-level role. -/
theorem dialogRole_not_transmitted :
    (chatDialogSendClick (some "student") sampleState sampleEnv "t0"
        true).sent =
      some { message := "Hello", role := none, timestamp := "t0" } ∧
    (none : Option String) ≠ some "student" ∧
    (chatDialogSendClick (some "student") sampleState sampleEnv "t0"
        true).final.userRoleLS.value = none :=
  ⟨by decide, by decide, by decide⟩
